import Mathlib

/-!
# Verification of `connect_prod.py`

Shallow embedding of the repository's single script `src/connect_prod.py`.

The script drives an SSH library (paramiko): it connects to a bastion host
(`oasis.stargety.com`), opens a `direct-tcpip` forwarded channel through the
bastion's transport to the internal Docker VM `192.168.0.205:22`, connects a
second SSH client over that channel, runs five fixed diagnostic commands
reading each command's standard output, prints the results, closes the inner
client and then the outer client, and — in `__main__` — wraps everything in a
`try/except` that prints the error and exits with status 1.

The embedding models every call into the SSH library as an externally chosen
`Outcome` (success, or a raised exception carrying a message), collected in an
`Env`.  Running the script against an `Env` produces the ordered trace of its
observable actions (`Event` list) together with either normal completion or a
propagated exception.  All claims are settled as statements about this trace
semantics, quantified over all environments where the claim is universal.
-/

/-- Result of a single call into the SSH library: either a value, or a raised
exception carrying its message (Python exceptions are modelled by their
message string). -/
inductive Outcome (α : Type) where
  | ok : α → Outcome α
  | exn : String → Outcome α
deriving DecidableEq

/-- Observable actions of the script, in execution order.  Session 1 is the
bastion client (`client1`), session 2 the internal client (`client2`).
`client1.connect` (line 10) both opens the transport-layer connection and
authenticates, so it is split into a `transportOpened` step followed by an
`authenticated` step, matching the two failure modes (network vs credential)
the call has; `client2.connect` (line 22) rides on the already-open forwarded
channel, so only its authentication step appears. -/
inductive Event where
  | printed : String → Event
  | connectAttempt : Nat → Event
  | transportOpened : Nat → Event
  | authenticated : Nat → Event
  | forwardAttempt : String × Nat → String × Nat → Event
  | channelOpened : String × Nat → String × Nat → Event
  | execed : Nat → String → Event
  | stdoutRead : Nat → Event
  | stderrRead : Nat → Event
  | closed : Nat → Event
deriving DecidableEq

/-- Externally determined outcomes of every call the script makes into the
SSH library.  `exec` and `readOut` are indexed by the command's position in
the script (0..4).  `readErr` models reading a command's standard-error
stream; the script never performs such a read, the field exists so that this
independence is expressible. -/
structure Env where
  bastionTcp : Outcome Unit
  bastionAuth : Outcome Unit
  openChannel : Outcome Unit
  internalAuth : Outcome Unit
  exec : Nat → Outcome Unit
  readOut : Nat → Outcome String
  readErr : Nat → Outcome String

/-- The script monad: a computation appends events to the trace and either
returns a value or propagates a Python exception (its message). -/
def Script (α : Type) : Type := List Event → Except String α × List Event

instance : Monad Script where
  pure a := fun evs => (Except.ok a, evs)
  bind x f := fun evs =>
    match x evs with
    | (Except.ok a, evs1) => f a evs1
    | (Except.error msg, evs1) => (Except.error msg, evs1)

/-- Record one observable action. -/
def emit (e : Event) : Script Unit := fun evs => (Except.ok (), evs ++ [e])

/-- `print(s)` in the script. -/
def pr (s : String) : Script Unit := emit (Event.printed s)

/-- Perform a library call with the given externally chosen outcome: a raised
exception aborts the rest of the script. -/
def runOutcome {α : Type} (o : Outcome α) : Script α := fun evs =>
  match o with
  | Outcome.ok a => (Except.ok a, evs)
  | Outcome.exn m => (Except.error m, evs)

/-- `"=" * 50`, the decorative separator line. -/
def sep : String := String.mk (List.replicate 50 '=')

/-- One command block of the script: the header printed between separators,
the shell command string passed to `exec_command`, and how the stdout text is
rendered by the block's `print` call. -/
structure Block where
  header : String
  cmd : String
  render : String → String

/-- Python's truthiness test `s.strip()`: a string is blank exactly when every
character is whitespace, i.e. stripping leaves the empty string. -/
def isBlank (s : String) : Bool :=
  s.toList.all fun c => c.isWhitespace

/-- `print(outText if outText.strip() else msg)`: the three docker blocks
substitute a warning when the command's output is blank. -/
def warnIfBlank (msg : String) (outText : String) : String :=
  if isBlank outText then msg else outText

/-- The five command blocks of lines 26-60, in script order.  The first two
print the output verbatim; the docker blocks print a warning if the output is
blank (lines 43, 50, 57-60; the statement-level `if/else` of the logs block
prints exactly one string in either branch, embedded as the rendered print). -/
def blocks : List Block :=
  [ { header := "📂 Current Directory:",
      cmd := "pwd",
      render := id },
    { header := "📋 Files in stargety-oasis:",
      cmd := "cd ~/stargety-oasis && ls -lah",
      render := id },
    { header := "🔍 Docker Status:",
      cmd := "docker ps -a",
      render := warnIfBlank "⚠️  No containers found" },
    { header := "🔍 Service Status (docker-compose):",
      cmd := "cd ~/stargety-oasis && docker-compose --profile production ps",
      render := warnIfBlank "⚠️  No services found" },
    { header := "📊 Production Logs (Last 50 lines):",
      cmd := "cd ~/stargety-oasis && docker-compose logs stargety-oasis --tail=50",
      render := warnIfBlank "⚠️  No logs available - containers may not be running" } ]

/-- Execute the command blocks starting at position `i`: print separators and
header, call `exec_command` on the internal client (session 2), read the
command's stdout in full, and print the rendered text (lines 26-60). -/
def runBlocks (env : Env) : Nat → List Block → Script Unit
  | _, [] => pure ()
  | i, b :: rest => do
      pr sep
      pr b.header
      pr sep
      emit (Event.execed 2 b.cmd)
      _ ← runOutcome (env.exec i)
      emit (Event.stdoutRead i)
      let outText ← runOutcome (env.readOut i)
      pr (b.render outText)
      runBlocks env (i + 1) rest

/-- The body of `connect_and_execute` (lines 5-65): connect and authenticate
to the bastion, open the `direct-tcpip` forwarded channel to the internal
endpoint tagged with the local originating address, authenticate the second
client over that channel, run the five command blocks, then close the inner
client followed by the outer client. -/
def connect_and_execute (env : Env) : Script Unit := do
  pr "🔗 Connecting to oasis.stargety.com..."
  emit (Event.connectAttempt 1)
  _ ← runOutcome env.bastionTcp
  emit (Event.transportOpened 1)
  _ ← runOutcome env.bastionAuth
  emit (Event.authenticated 1)
  pr "✓ Connected to main server\n"
  pr "🔗 Connecting to Docker VM (192.168.0.205)..."
  emit (Event.forwardAttempt ("192.168.0.205", 22) ("192.168.0.200", 22))
  _ ← runOutcome env.openChannel
  emit (Event.channelOpened ("192.168.0.205", 22) ("192.168.0.200", 22))
  emit (Event.connectAttempt 2)
  _ ← runOutcome env.internalAuth
  emit (Event.authenticated 2)
  pr "✓ Connected to Docker VM\n"
  runBlocks env 0 blocks
  emit (Event.closed 2)
  emit (Event.closed 1)
  pr "\n✓ Done"

/-- The `__main__` guard (lines 67-72): run `connect_and_execute`; if an
exception propagates, print the error and exit with status 1, otherwise exit
with status 0.  Returns the final trace and the process exit status. -/
def mainResult (env : Env) : List Event × Nat :=
  match connect_and_execute env [] with
  | (Except.ok _, evs) => (evs, 0)
  | (Except.error m, evs) => (evs ++ [Event.printed ("❌ Error: " ++ m)], 1)

/-- The full trace of one process run. -/
def runEvents (env : Env) : List Event := (mainResult env).1

/-- The process exit status of one run. -/
def exitCode (env : Env) : Nat := (mainResult env).2

/-- Commands passed to `exec_command`, in order of attempt. -/
def execedCmds (evs : List Event) : List String :=
  evs.filterMap fun e =>
    match e with
    | Event.execed _ c => some c
    | _ => none

/-- Sessions closed, in order of closing. -/
def closedSessions (evs : List Event) : List Nat :=
  evs.filterMap fun e =>
    match e with
    | Event.closed s => some s
    | _ => none

/-- Command positions whose standard-error stream was read. -/
def stderrReads (evs : List Event) : List Nat :=
  evs.filterMap fun e =>
    match e with
    | Event.stderrRead i => some i
    | _ => none

/-- The tunnel-establishment milestones of a trace: transport connections
opened, sessions authenticated, forwarded channels opened. -/
def setupTrace (evs : List Event) : List Event :=
  evs.filter fun e =>
    match e with
    | Event.transportOpened _ => true
    | Event.authenticated _ => true
    | Event.channelOpened _ _ => true
    | _ => false

/-- Number of forwarded-channel requests in a trace. -/
def forwardAttempts (evs : List Event) : Nat :=
  (evs.filter fun e =>
    match e with
    | Event.forwardAttempt _ _ => true
    | _ => false).length

/-- Number of connect calls made for session `sid`. -/
def connectAttempts (sid : Nat) (evs : List Event) : Nat :=
  (evs.filter fun e =>
    match e with
    | Event.connectAttempt s => s == sid
    | _ => false).length

/-- Events the script can emit before it reaches the closing lines 62-64:
everything except close events, stderr reads, and command execution on a
session other than the internal one. -/
def preEvent (e : Event) : Bool :=
  match e with
  | Event.closed _ => false
  | Event.stderrRead _ => false
  | Event.execed s _ => s == 2
  | _ => true

/-- Events emitted by the command blocks (lines 26-60). -/
def blockEvent (e : Event) : Bool :=
  match e with
  | Event.printed _ => true
  | Event.execed s _ => s == 2
  | Event.stdoutRead _ => true
  | _ => false

/-- `true` for events that use the internal (second-hop) session: executing a
command on it or reading one of its output streams. -/
def internalUse (e : Event) : Bool :=
  match e with
  | Event.execed s _ => s == 2
  | Event.stdoutRead _ => true
  | Event.stderrRead _ => true
  | _ => false

/-- Checks that after every `closed 1` event (bastion session closed) no later
event uses the internal session. -/
def checkC6 : List Event → Bool
  | [] => true
  | e :: rest =>
      (if e = Event.closed 1 then rest.all fun x => !internalUse x else true)
        && checkC6 rest

/-- `true` unless the event executes a command on a session other than the
internal one (session 2). -/
def execOnlyInternal (e : Event) : Bool :=
  match e with
  | Event.execed s _ => s == 2
  | _ => true

/-- The three events of the script's orderly shutdown (lines 62-65). -/
def closingEvents : List Event :=
  [Event.closed 2, Event.closed 1, Event.printed "\n✓ Done"]

/-- The trace of a fully successful tunnel establishment (lines 7-23), before
any command block runs. -/
def tunnelEvents : List Event :=
  [Event.printed "🔗 Connecting to oasis.stargety.com...",
   Event.connectAttempt 1, Event.transportOpened 1, Event.authenticated 1,
   Event.printed "✓ Connected to main server\n",
   Event.printed "🔗 Connecting to Docker VM (192.168.0.205)...",
   Event.forwardAttempt ("192.168.0.205", 22) ("192.168.0.200", 22),
   Event.channelOpened ("192.168.0.205", 22) ("192.168.0.200", 22),
   Event.connectAttempt 2, Event.authenticated 2,
   Event.printed "✓ Connected to Docker VM\n"]

/-- Environment in which every library call succeeds and command `i` produces
stdout text `r i`. -/
def allOkEnv (r : Nat → String) : Env :=
  { bastionTcp := Outcome.ok ()
    bastionAuth := Outcome.ok ()
    openChannel := Outcome.ok ()
    internalAuth := Outcome.ok ()
    exec := fun _ => Outcome.ok ()
    readOut := fun i => Outcome.ok (r i)
    readErr := fun _ => Outcome.ok "" }

/-- Environment where the first `exec_command` call raises (the channel died
after the tunnel was established): an exception during command execution. -/
def envCmdFail : Env :=
  { allOkEnv (fun _ => "") with
    exec := fun _ => Outcome.exn "SSHException: Channel closed" }

/-- Environment where reading the stdout of the second command (position 1)
raises: a read error in the middle of the sequence. -/
def envReadFail : Env :=
  { allOkEnv (fun _ => "out") with
    readOut := fun i =>
      if i = 1 then Outcome.exn "read failed" else Outcome.ok "out" }

/-- Environment where the bastion rejects the credential: the transport-layer
connection opens but authentication raises. -/
def envBadAuth : Env :=
  { allOkEnv (fun _ => "") with
    bastionAuth := Outcome.exn "Authentication failed." }

/-- Environment where the bastion host is unreachable: the transport-layer
connection itself raises. -/
def envNetFail : Env :=
  { allOkEnv (fun _ => "") with
    bastionTcp := Outcome.exn "No route to host" }

/-- Per-command result record of the specification's Command Runner
(spec §3): the command, both captured output streams, and the exit status. -/
structure CommandResult where
  command : String
  stdout : String
  stderr : String
  exitStatus : Int
deriving DecidableEq

/-- Modelled from the spec: the Command Runner's `run`/`exec` operation over a
remote session (spec §4.2) is not part of `src/` — the source script only
drives a fixed command list — so the session is modelled as an abstract state
with a deterministic execution step producing the next remote state and the
command's `CommandResult`. -/
structure RemoteModel where
  State : Type
  exec : State → String → State × CommandResult

/-- Modelled from the spec: a remote state is quiescent for a command when
executing the command leaves the state unchanged (spec §8, "quiescent remote
state"). -/
def quiescent (m : RemoteModel) (s : m.State) (cmd : String) : Prop :=
  (m.exec s cmd).1 = s

/-- Modelled from the spec: run the same command twice in the same session,
returning both results (spec §8, idempotence property). -/
def runTwiceResults (m : RemoteModel) (s : m.State) (cmd : String) :
    CommandResult × CommandResult :=
  ((m.exec s cmd).2, (m.exec (m.exec s cmd).1 cmd).2)

/-- A concrete remote model used to instantiate the idempotence property: the
state is a counter the commands never change, and a command echoes itself. -/
def demoModel : RemoteModel :=
  { State := Nat
    exec := fun s c => (s, { command := c, stdout := c, stderr := "", exitStatus := 0 }) }

example : exitCode (allOkEnv fun _ => "x") = 0 := rfl
example : exitCode envNetFail = 1 := rfl

/-! ## Reduction lemmas for the script monad -/

theorem bind_apply {α β : Type} (x : Script α) (f : α → Script β) (evs : List Event) :
    (x >>= f) evs =
      match x evs with
      | (Except.ok a, evs1) => f a evs1
      | (Except.error m, evs1) => (Except.error m, evs1) := rfl

@[simp] theorem pr_bind {α : Type} (s : String) (f : Unit → Script α) (evs : List Event) :
    (pr s >>= f) evs = f () (evs ++ [Event.printed s]) := rfl

@[simp] theorem emit_bind {α : Type} (e : Event) (f : Unit → Script α) (evs : List Event) :
    (emit e >>= f) evs = f () (evs ++ [e]) := rfl

@[simp] theorem ok_bind {α β : Type} (a : α) (f : α → Script β) (evs : List Event) :
    (runOutcome (Outcome.ok a) >>= f) evs = f a evs := rfl

@[simp] theorem exn_bind {α β : Type} (m : String) (f : α → Script β) (evs : List Event) :
    (runOutcome (Outcome.exn m) >>= f) evs = (Except.error m, evs) := rfl

@[simp] theorem pure_apply {α : Type} (a : α) (evs : List Event) :
    (pure a : Script α) evs = (Except.ok a, evs) := rfl

@[simp] theorem runOutcome_ok {α : Type} (a : α) (evs : List Event) :
    runOutcome (Outcome.ok a) evs = (Except.ok a, evs) := rfl

@[simp] theorem runOutcome_exn {α : Type} (m : String) (evs : List Event) :
    runOutcome (Outcome.exn m : Outcome α) evs = (Except.error m, evs) := rfl

@[simp] theorem pr_apply (s : String) (evs : List Event) :
    pr s evs = (Except.ok (), evs ++ [Event.printed s]) := rfl

@[simp] theorem emit_apply (e : Event) (evs : List Event) :
    emit e evs = (Except.ok (), evs ++ [e]) := rfl

/-! ## Trace-observation lemmas -/

@[simp] theorem execedCmds_append (l1 l2 : List Event) :
    execedCmds (l1 ++ l2) = execedCmds l1 ++ execedCmds l2 := by
  simp [execedCmds]

@[simp] theorem closedSessions_append (l1 l2 : List Event) :
    closedSessions (l1 ++ l2) = closedSessions l1 ++ closedSessions l2 := by
  simp [closedSessions]

@[simp] theorem stderrReads_append (l1 l2 : List Event) :
    stderrReads (l1 ++ l2) = stderrReads l1 ++ stderrReads l2 := by
  simp [stderrReads]

@[simp] theorem setupTrace_append (l1 l2 : List Event) :
    setupTrace (l1 ++ l2) = setupTrace l1 ++ setupTrace l2 := by
  simp [setupTrace]

@[simp] theorem forwardAttempts_append (l1 l2 : List Event) :
    forwardAttempts (l1 ++ l2) = forwardAttempts l1 + forwardAttempts l2 := by
  simp [forwardAttempts]

@[simp] theorem connectAttempts_append (sid : Nat) (l1 l2 : List Event) :
    connectAttempts sid (l1 ++ l2) = connectAttempts sid l1 + connectAttempts sid l2 := by
  simp [connectAttempts]

@[simp] theorem execedCmds_nil : execedCmds [] = [] := rfl

@[simp] theorem execedCmds_cons_printed (s : String) (l : List Event) :
    execedCmds (Event.printed s :: l) = execedCmds l := rfl

@[simp] theorem execedCmds_cons_execed (sid : Nat) (c : String) (l : List Event) :
    execedCmds (Event.execed sid c :: l) = c :: execedCmds l := rfl

@[simp] theorem execedCmds_cons_stdout (i : Nat) (l : List Event) :
    execedCmds (Event.stdoutRead i :: l) = execedCmds l := rfl

theorem closedSessions_nil_of_pre (l : List Event) (h : ∀ e ∈ l, preEvent e = true) :
    closedSessions l = [] := by
  induction l with
  | nil => rfl
  | cons e rest ih =>
      have he := h e (by simp)
      have hrest : ∀ x ∈ rest, preEvent x = true := fun x hx => h x (by simp [hx])
      have htail := ih hrest
      cases e <;> simp_all [closedSessions, preEvent]

theorem stderrReads_nil_of_pre (l : List Event) (h : ∀ e ∈ l, preEvent e = true) :
    stderrReads l = [] := by
  induction l with
  | nil => rfl
  | cons e rest ih =>
      have he := h e (by simp)
      have hrest : ∀ x ∈ rest, preEvent x = true := fun x hx => h x (by simp [hx])
      have htail := ih hrest
      cases e <;> simp_all [stderrReads, preEvent]

theorem setupTrace_nil_of_block (l : List Event) (h : ∀ e ∈ l, blockEvent e = true) :
    setupTrace l = [] := by
  induction l with
  | nil => rfl
  | cons e rest ih =>
      have he := h e (by simp)
      have hrest : ∀ x ∈ rest, blockEvent x = true := fun x hx => h x (by simp [hx])
      have htail := ih hrest
      cases e <;> simp_all [setupTrace, blockEvent]

theorem blockEvent_pre (e : Event) (h : blockEvent e = true) : preEvent e = true := by
  cases e <;> simp_all [blockEvent, preEvent]

theorem preEvent_ne_close (e : Event) (h : preEvent e = true) : e ≠ Event.closed 1 := by
  cases e <;> simp_all [preEvent]

theorem preEvent_execOnly (e : Event) (h : preEvent e = true) :
    execOnlyInternal e = true := by
  cases e <;> simp_all [preEvent, execOnlyInternal]

theorem checkC6_append (l tail : List Event) (h : ∀ e ∈ l, e ≠ Event.closed 1) :
    checkC6 (l ++ tail) = checkC6 tail := by
  induction l with
  | nil => rfl
  | cons e rest ih =>
      have he := h e (by simp)
      have hrest : ∀ x ∈ rest, x ≠ Event.closed 1 := fun x hx => h x (by simp [hx])
      simp [checkC6, he, ih hrest]

/-- Shape of a `runBlocks` run: it appends a trace consisting only of block
events, the commands it passes to `exec_command` are an initial segment of the
block list's commands, and on normal completion they are all of them. -/
theorem runBlocks_shape (env : Env) (bs : List Block) (i : Nat) (evs : List Event) :
    ∃ d r, runBlocks env i bs evs = (r, evs ++ d) ∧
      (∀ e ∈ d, blockEvent e = true) ∧
      (∃ t, execedCmds d ++ t = bs.map Block.cmd) ∧
      (r = Except.ok () → execedCmds d = bs.map Block.cmd) := by
  induction bs generalizing i evs with
  | nil =>
      refine ⟨[], Except.ok (), ?_, ?_, ⟨[], ?_⟩, ?_⟩ <;>
        simp [runBlocks, execedCmds]
  | cons b rest ih =>
      cases hx : env.exec i with
      | exn m =>
          refine ⟨[Event.printed sep, Event.printed b.header, Event.printed sep,
              Event.execed 2 b.cmd], Except.error m, ?_, ?_, ?_, ?_⟩
          · simp [runBlocks, hx]
          · intro e he
            fin_cases he <;> rfl
          · exact ⟨rest.map Block.cmd, by simp [execedCmds]⟩
          · intro h
            exact absurd h (by simp)
      | ok u =>
          cases u
          cases hr : env.readOut i with
          | exn m =>
              refine ⟨[Event.printed sep, Event.printed b.header, Event.printed sep,
                  Event.execed 2 b.cmd, Event.stdoutRead i], Except.error m, ?_, ?_, ?_, ?_⟩
              · simp [runBlocks, hx, hr]
              · intro e he
                fin_cases he <;> rfl
              · exact ⟨rest.map Block.cmd, by simp [execedCmds]⟩
              · intro h
                exact absurd h (by simp)
          | ok s =>
              obtain ⟨d, r, hrun, hall, ⟨t, ht⟩, hok⟩ :=
                ih (i + 1) (evs ++ [Event.printed sep, Event.printed b.header,
                  Event.printed sep, Event.execed 2 b.cmd, Event.stdoutRead i,
                  Event.printed (b.render s)])
              refine ⟨[Event.printed sep, Event.printed b.header, Event.printed sep,
                  Event.execed 2 b.cmd, Event.stdoutRead i,
                  Event.printed (b.render s)] ++ d, r, ?_, ?_, ?_, ?_⟩
              · simp only [runBlocks, pr_bind, emit_bind, hx, hr, ok_bind,
                  List.append_assoc, List.cons_append, List.singleton_append,
                  List.nil_append] at hrun ⊢
                rw [hrun]
              · intro e he
                rcases List.mem_append.mp he with h1 | h2
                · fin_cases h1 <;> rfl
                · exact hall e h2
              · exact ⟨t, by simp [ht]⟩
              · intro h
                simp [hok h]

/-- Shape of a whole run of `connect_and_execute` from the empty trace: either
an exception propagates and the trace contains only pre-closing events with
the attempted commands an initial segment of the script's command list, or the
run completes normally, the trace ends with the orderly shutdown events, and
every command was attempted. -/
theorem script_shape (env : Env) :
    (∃ m d, connect_and_execute env [] = (Except.error m, d) ∧
       (∀ e ∈ d, preEvent e = true) ∧
       (∃ t, execedCmds d ++ t = blocks.map Block.cmd))
  ∨ (∃ pre, connect_and_execute env [] = (Except.ok (), pre ++ closingEvents) ∧
       (∀ e ∈ pre, preEvent e = true) ∧
       execedCmds pre = blocks.map Block.cmd) := by
  cases h1 : env.bastionTcp with
  | exn m =>
      left
      refine ⟨m, [Event.printed "🔗 Connecting to oasis.stargety.com...",
        Event.connectAttempt 1], ?_, ?_, ⟨blocks.map Block.cmd, ?_⟩⟩
      · simp [connect_and_execute, h1]
      · intro e he
        fin_cases he <;> rfl
      · rfl
  | ok u1 =>
      cases u1
      cases h2 : env.bastionAuth with
      | exn m =>
          left
          refine ⟨m, [Event.printed "🔗 Connecting to oasis.stargety.com...",
            Event.connectAttempt 1, Event.transportOpened 1], ?_, ?_,
            ⟨blocks.map Block.cmd, ?_⟩⟩
          · simp [connect_and_execute, h1, h2]
          · intro e he
            fin_cases he <;> rfl
          · rfl
      | ok u2 =>
          cases u2
          cases h3 : env.openChannel with
          | exn m =>
              left
              refine ⟨m, [Event.printed "🔗 Connecting to oasis.stargety.com...",
                Event.connectAttempt 1, Event.transportOpened 1, Event.authenticated 1,
                Event.printed "✓ Connected to main server\n",
                Event.printed "🔗 Connecting to Docker VM (192.168.0.205)...",
                Event.forwardAttempt ("192.168.0.205", 22) ("192.168.0.200", 22)], ?_, ?_,
                ⟨blocks.map Block.cmd, ?_⟩⟩
              · simp [connect_and_execute, h1, h2, h3]
              · intro e he
                fin_cases he <;> rfl
              · rfl
          | ok u3 =>
              cases u3
              cases h4 : env.internalAuth with
              | exn m =>
                  left
                  refine ⟨m, [Event.printed "🔗 Connecting to oasis.stargety.com...",
                    Event.connectAttempt 1, Event.transportOpened 1, Event.authenticated 1,
                    Event.printed "✓ Connected to main server\n",
                    Event.printed "🔗 Connecting to Docker VM (192.168.0.205)...",
                    Event.forwardAttempt ("192.168.0.205", 22) ("192.168.0.200", 22),
                    Event.channelOpened ("192.168.0.205", 22) ("192.168.0.200", 22),
                    Event.connectAttempt 2], ?_, ?_, ⟨blocks.map Block.cmd, ?_⟩⟩
                  · simp [connect_and_execute, h1, h2, h3, h4]
                  · intro e he
                    fin_cases he <;> rfl
                  · rfl
              | ok u4 =>
                  cases u4
                  obtain ⟨d, r, hrun, hall, ⟨t, ht⟩, hok⟩ :=
                    runBlocks_shape env blocks 0 tunnelEvents
                  simp only [tunnelEvents, List.cons_append, List.nil_append] at hrun
                  have hmemPre : ∀ e ∈ tunnelEvents, preEvent e = true := by
                    intro e he
                    fin_cases he <;> rfl
                  cases r with
                  | error m =>
                      left
                      refine ⟨m, tunnelEvents ++ d, ?_, ?_, ⟨t, ?_⟩⟩
                      · simp only [connect_and_execute, pr_bind, emit_bind, ok_bind,
                          h1, h2, h3, h4, tunnelEvents, List.cons_append,
                          List.nil_append, List.singleton_append, List.append_assoc]
                        rw [bind_apply]
                        rw [hrun]
                      · intro e he
                        rcases List.mem_append.mp he with hp | hd
                        · exact hmemPre e hp
                        · exact blockEvent_pre e (hall e hd)
                      · have h0 : execedCmds tunnelEvents = [] := rfl
                        simp only [execedCmds_append, h0, List.nil_append]
                        exact ht
                  | ok u5 =>
                      cases u5
                      right
                      refine ⟨tunnelEvents ++ d, ?_, ?_, ?_⟩
                      · simp only [connect_and_execute, pr_bind, emit_bind, ok_bind,
                          h1, h2, h3, h4, tunnelEvents, List.cons_append,
                          List.nil_append, List.singleton_append, List.append_assoc]
                        rw [bind_apply]
                        rw [hrun]
                        simp [closingEvents, tunnelEvents]
                      · intro e he
                        rcases List.mem_append.mp he with hp | hd
                        · exact hmemPre e hp
                        · exact blockEvent_pre e (hall e hd)
                      · have h0 : execedCmds tunnelEvents = [] := rfl
                        simp only [execedCmds_append, h0, List.nil_append]
                        exact hok rfl

/-- `script_shape` transported through the `__main__` guard: the trace and
exit status of a whole process run. -/
theorem mainResult_shape (env : Env) :
    (∃ m d, mainResult env = (d ++ [Event.printed ("❌ Error: " ++ m)], 1) ∧
       (∀ e ∈ d, preEvent e = true) ∧
       (∃ t, execedCmds d ++ t = blocks.map Block.cmd))
  ∨ (∃ pre, mainResult env = (pre ++ closingEvents, 0) ∧
       (∀ e ∈ pre, preEvent e = true) ∧
       execedCmds pre = blocks.map Block.cmd) := by
  rcases script_shape env with ⟨m, d, h, hall, hpre⟩ | ⟨pre, h, hall, hfull⟩
  · exact Or.inl ⟨m, d, by simp [mainResult, h], hall, hpre⟩
  · exact Or.inr ⟨pre, by simp [mainResult, h], hall, hfull⟩

/-- When the whole tunnel establishment succeeds, the run's trace is the
tunnel-establishment trace, then block events, then either the orderly
shutdown or a single error printout. -/
theorem run_tunnel_ok (env : Env) (h1 : env.bastionTcp = Outcome.ok ())
    (h2 : env.bastionAuth = Outcome.ok ()) (h3 : env.openChannel = Outcome.ok ())
    (h4 : env.internalAuth = Outcome.ok ()) :
    ∃ d rest, runEvents env = tunnelEvents ++ (d ++ rest) ∧
      (∀ e ∈ d, blockEvent e = true) ∧
      (rest = closingEvents ∨ ∃ m, rest = [Event.printed ("❌ Error: " ++ m)]) := by
  obtain ⟨d, r, hrun, hall, -, -⟩ := runBlocks_shape env blocks 0 tunnelEvents
  simp only [tunnelEvents, List.cons_append, List.nil_append] at hrun
  cases r with
  | error m =>
      refine ⟨d, [Event.printed ("❌ Error: " ++ m)], ?_, hall, Or.inr ⟨m, rfl⟩⟩
      have hc : connect_and_execute env [] = (Except.error m, tunnelEvents ++ d) := by
        simp only [connect_and_execute, pr_bind, emit_bind, ok_bind, h1, h2, h3, h4,
          tunnelEvents, List.cons_append, List.nil_append, List.append_assoc]
        rw [bind_apply, hrun]
      simp only [runEvents, mainResult, hc]
      simp [List.append_assoc]
  | ok u =>
      cases u
      refine ⟨d, closingEvents, ?_, hall, Or.inl rfl⟩
      have hc : connect_and_execute env [] =
          (Except.ok (), (tunnelEvents ++ d) ++ closingEvents) := by
        simp only [connect_and_execute, pr_bind, emit_bind, ok_bind, h1, h2, h3, h4,
          tunnelEvents, List.cons_append, List.nil_append, List.append_assoc]
        rw [bind_apply, hrun]
        simp [closingEvents]
      simp only [runEvents, mainResult, hc]
      simp [List.append_assoc]

/-! ## Claims -/

/-- Claim C1, counterexample: on the exit path where `exec_command` of the
first command raises (an exception during command execution), the process
exits with status 1, a second-hop session had been established, and yet no
close is performed on either session — the script has no `try/finally`, so
the claimed guaranteed inner-then-outer release does not happen on this exit
path. -/
theorem C1_counterexample :
    exitCode envCmdFail = 1 ∧
    Event.authenticated 2 ∈ runEvents envCmdFail ∧
    closedSessions (runEvents envCmdFail) = [] := by
  refine ⟨rfl, by decide, rfl⟩

/-- Claim C1, amended: only on the exception-free exit path are the sessions
released, and there in inner-then-outer order (internal session 2 first, then
bastion session 1); on every exceptional exit path the program closes
nothing. -/
theorem C1_amended_thm (env : Env) :
    (exitCode env = 0 → closedSessions (runEvents env) = [2, 1]) ∧
    (exitCode env = 1 → closedSessions (runEvents env) = []) := by
  rcases mainResult_shape env with ⟨m, d, h, hall, -⟩ | ⟨pre, h, hall, -⟩
  · have hnil := closedSessions_nil_of_pre d hall
    have herr : closedSessions [Event.printed ("❌ Error: " ++ m)] = [] := rfl
    constructor
    · intro h0
      simp only [exitCode, h] at h0
      simp at h0
    · intro _
      simp only [runEvents, h, closedSessions_append, hnil, herr, List.append_nil]
  · have hnil := closedSessions_nil_of_pre pre hall
    have hclose : closedSessions closingEvents = [2, 1] := rfl
    constructor
    · intro _
      simp only [runEvents, h, closedSessions_append, hnil, hclose, List.nil_append]
    · intro h0
      simp only [exitCode, h] at h0
      simp at h0

/-- Witness for C1's amended theorem: in the environment where every library
call succeeds the run exits with status 0 and closes session 2 then
session 1. -/
theorem C1_witness :
    closedSessions (runEvents (allOkEnv fun _ => "")) = [2, 1] :=
  (C1_amended_thm (allOkEnv fun _ => "")).1 rfl

/-- Claim C2, counterexample: in a run where all five commands execute, the
standard-error stream is never read — the script captures only standard
output (`stdout.read()`, lines 30/36/42/49/56) and never touches `stderr` or
any exit status, so no `CommandResult` with both streams exists. -/
theorem C2_counterexample :
    (execedCmds (runEvents (allOkEnv fun _ => "x"))).length = 5 ∧
    stderrReads (runEvents (allOkEnv fun _ => "x")) = [] := ⟨rfl, rfl⟩

/-- Claim C2, amended: for every environment the script reads no standard
error stream at all, and its entire observable behaviour is independent of
the standard-error contents. -/
theorem C2_amended_thm (env : Env) (f : Nat → Outcome String) :
    stderrReads (runEvents env) = [] ∧
    mainResult { env with readErr := f } = mainResult env := by
  constructor
  · rcases mainResult_shape env with ⟨m, d, h, hall, -⟩ | ⟨pre, h, hall, -⟩
    · have hnil := stderrReads_nil_of_pre d hall
      have herr : stderrReads [Event.printed ("❌ Error: " ++ m)] = [] := rfl
      simp only [runEvents, h, stderrReads_append, hnil, herr, List.append_nil]
    · have hnil := stderrReads_nil_of_pre pre hall
      have hclose : stderrReads closingEvents = [] := rfl
      simp only [runEvents, h, stderrReads_append, hnil, hclose, List.nil_append]
  · cases env
    rfl

/-- Claim C3, counterexample: a read error on the second command (position 1)
halts the whole run — the third command `docker ps -a` is never attempted and
only a strict prefix of the command list was executed, refuting "failure of
one command does not halt the sequence". -/
theorem C3_counterexample :
    execedCmds (runEvents envReadFail) = ["pwd", "cd ~/stargety-oasis && ls -lah"] ∧
    Event.execed 2 "docker ps -a" ∉ runEvents envReadFail ∧
    exitCode envReadFail = 1 := by
  refine ⟨rfl, by decide, rfl⟩

/-- Claim C3, amended: the script attempts its five fixed commands in input
order; the commands attempted always form an initial segment of that list,
all five are attempted exactly when the run raises no exception, and any
exception (connection failure, `exec_command` failure, or a read error)
truncates the remainder — exit statuses are never observed, so a non-zero
exit status indeed does not halt the sequence, but a read error does. -/
theorem C3_amended_thm (env : Env) :
    (∃ t, execedCmds (runEvents env) ++ t = blocks.map Block.cmd) ∧
    (exitCode env = 0 → execedCmds (runEvents env) = blocks.map Block.cmd) := by
  rcases mainResult_shape env with ⟨m, d, h, hall, ⟨t, ht⟩⟩ | ⟨pre, h, hall, hfull⟩
  · have herr : execedCmds [Event.printed ("❌ Error: " ++ m)] = [] := rfl
    constructor
    · refine ⟨t, ?_⟩
      simp only [runEvents, h, execedCmds_append, herr, List.append_nil]
      exact ht
    · intro h0
      simp only [exitCode, h] at h0
      simp at h0
  · have hclose : execedCmds closingEvents = [] := rfl
    constructor
    · refine ⟨[], ?_⟩
      simp only [runEvents, h, execedCmds_append, hclose, List.append_nil]
      exact hfull
    · intro _
      simp only [runEvents, h, execedCmds_append, hclose, List.append_nil]
      exact hfull

/-- Witness for C3's amended theorem: with every call succeeding, the
exit status is 0 and all five commands are attempted in order. -/
theorem C3_witness :
    execedCmds (runEvents (allOkEnv fun _ => "y")) = blocks.map Block.cmd :=
  (C3_amended_thm (allOkEnv fun _ => "y")).2 rfl

/-- Claim C4: whenever the tunnel establishment succeeds, its milestones
appear in the trace in exactly this order — (1) transport connection to the
bastion opened and authenticated, (2) forwarded channel opened from the
bastion's transport to the internal endpoint (192.168.0.205, 22) tagged with
the local originating address (192.168.0.200, 22), (3) the second session
authenticated over that channel. -/
theorem C4_thm (env : Env) (h1 : env.bastionTcp = Outcome.ok ())
    (h2 : env.bastionAuth = Outcome.ok ()) (h3 : env.openChannel = Outcome.ok ())
    (h4 : env.internalAuth = Outcome.ok ()) :
    setupTrace (runEvents env) =
      [Event.transportOpened 1, Event.authenticated 1,
       Event.channelOpened ("192.168.0.205", 22) ("192.168.0.200", 22),
       Event.authenticated 2] := by
  obtain ⟨d, rest, hev, hall, hrest⟩ := run_tunnel_ok env h1 h2 h3 h4
  have hd := setupTrace_nil_of_block d hall
  have htun : setupTrace tunnelEvents =
      [Event.transportOpened 1, Event.authenticated 1,
       Event.channelOpened ("192.168.0.205", 22) ("192.168.0.200", 22),
       Event.authenticated 2] := rfl
  have hrest0 : setupTrace rest = [] := by
    rcases hrest with rfl | ⟨m, rfl⟩ <;> rfl
  rw [hev]
  simp only [setupTrace_append, hd, htun, hrest0, List.append_nil, List.nil_append]

/-- Witness for C4: the concrete all-success environment realizes the three
establishment steps in order. -/
theorem C4_witness :
    setupTrace (runEvents (allOkEnv fun _ => "w")) =
      [Event.transportOpened 1, Event.authenticated 1,
       Event.channelOpened ("192.168.0.205", 22) ("192.168.0.200", 22),
       Event.authenticated 2] :=
  C4_thm (allOkEnv fun _ => "w") rfl rfl rfl rfl

/-- Claim C5, counterexample: with the bastion credential rejected, the run
does fail before any forward is attempted, but a partially-opened resource —
the bastion transport connection — is left behind with no close performed:
the script releases nothing on this path, refuting the claim's "releasing any
partially-opened resource" clause. -/
theorem C5_counterexample :
    Event.transportOpened 1 ∈ runEvents envBadAuth ∧
    forwardAttempts (runEvents envBadAuth) = 0 ∧
    closedSessions (runEvents envBadAuth) = [] ∧
    exitCode envBadAuth = 1 := by
  refine ⟨by decide, rfl, rfl, rfl⟩

/-- Claim C5, amended: if the bastion rejects the credential, the propagated
authentication error aborts the run before any forwarded channel is requested
and before any second-hop connect is attempted, with exactly one bastion
connect attempt (no retry), no command executed, the process exiting with
status 1 after printing the error — but the script itself releases nothing:
no close is performed on the partially-opened bastion connection. -/
theorem C5_amended_thm (env : Env) (m : String)
    (h1 : env.bastionTcp = Outcome.ok ()) (h2 : env.bastionAuth = Outcome.exn m) :
    forwardAttempts (runEvents env) = 0 ∧
    connectAttempts 2 (runEvents env) = 0 ∧
    connectAttempts 1 (runEvents env) = 1 ∧
    execedCmds (runEvents env) = [] ∧
    closedSessions (runEvents env) = [] ∧
    exitCode env = 1 ∧
    Event.printed ("❌ Error: " ++ m) ∈ runEvents env := by
  have hc : connect_and_execute env [] =
      (Except.error m, [Event.printed "🔗 Connecting to oasis.stargety.com...",
        Event.connectAttempt 1, Event.transportOpened 1]) := by
    simp only [connect_and_execute, pr_bind, emit_bind, ok_bind, exn_bind, h1, h2,
      List.cons_append, List.nil_append]
  have hev : runEvents env =
      [Event.printed "🔗 Connecting to oasis.stargety.com...",
       Event.connectAttempt 1, Event.transportOpened 1,
       Event.printed ("❌ Error: " ++ m)] := by
    simp only [runEvents, mainResult, hc]
    rfl
  have hexit : exitCode env = 1 := by
    simp only [exitCode, mainResult, hc]
  rw [hev]
  exact ⟨rfl, rfl, rfl, rfl, rfl, hexit, by simp⟩

/-- Witness for C5's amended theorem at the concrete bad-credential
environment. -/
theorem C5_witness :
    forwardAttempts (runEvents envBadAuth) = 0 ∧
    connectAttempts 2 (runEvents envBadAuth) = 0 ∧
    connectAttempts 1 (runEvents envBadAuth) = 1 ∧
    execedCmds (runEvents envBadAuth) = [] ∧
    closedSessions (runEvents envBadAuth) = [] ∧
    exitCode envBadAuth = 1 ∧
    Event.printed ("❌ Error: " ++ "Authentication failed.") ∈ runEvents envBadAuth :=
  C5_amended_thm envBadAuth "Authentication failed." rfl rfl

/-- Claim C6: in every run, after any point where the bastion session
(session 1) has been closed, no later event uses the internal session —
the internal session never outlives the bastion session. -/
theorem C6_thm (env : Env) : checkC6 (runEvents env) = true := by
  rcases mainResult_shape env with ⟨m, d, h, hall, -⟩ | ⟨pre, h, hall, -⟩
  · have hno : ∀ e ∈ d ++ [Event.printed ("❌ Error: " ++ m)],
        e ≠ Event.closed 1 := by
      intro e he
      rcases List.mem_append.mp he with hd | hp
      · exact preEvent_ne_close e (hall e hd)
      · simp at hp
        subst hp
        simp
    have h2 := checkC6_append (d ++ [Event.printed ("❌ Error: " ++ m)]) [] hno
    simp only [runEvents, h]
    simpa using h2
  · have hno : ∀ e ∈ pre, e ≠ Event.closed 1 := fun e he =>
      preEvent_ne_close e (hall e he)
    have h2 := checkC6_append pre closingEvents hno
    have h3 : checkC6 closingEvents = true := rfl
    simp only [runEvents, h, h2, h3]

/-- Claim C7: in the run where every library call succeeds and command `i`
produces output `r i`, the script executes exactly its five fixed read-only
diagnostic commands in order — `pwd`, the directory listing, `docker ps -a`,
`docker-compose ps`, `docker-compose logs` — and prints each command's
output (for the three docker commands, verbatim whenever the output is not
blank; a blank output is replaced by a warning line). -/
theorem C7_thm (r : Nat → String) :
    execedCmds (runEvents (allOkEnv r)) =
      ["pwd", "cd ~/stargety-oasis && ls -lah", "docker ps -a",
       "cd ~/stargety-oasis && docker-compose --profile production ps",
       "cd ~/stargety-oasis && docker-compose logs stargety-oasis --tail=50"] ∧
    Event.printed (r 0) ∈ runEvents (allOkEnv r) ∧
    Event.printed (r 1) ∈ runEvents (allOkEnv r) ∧
    (isBlank (r 2) = false → Event.printed (r 2) ∈ runEvents (allOkEnv r)) ∧
    (isBlank (r 3) = false → Event.printed (r 3) ∈ runEvents (allOkEnv r)) ∧
    (isBlank (r 4) = false → Event.printed (r 4) ∈ runEvents (allOkEnv r)) := by
  refine ⟨?_, ?_, ?_, ?_, ?_, ?_⟩
  · simp [runEvents, mainResult, connect_and_execute, runBlocks, blocks, allOkEnv,
      bind_apply, execedCmds]
  · simp [runEvents, mainResult, connect_and_execute, runBlocks, blocks, allOkEnv,
      bind_apply]
  · simp [runEvents, mainResult, connect_and_execute, runBlocks, blocks, allOkEnv,
      bind_apply]
  · intro hb
    simp [runEvents, mainResult, connect_and_execute, runBlocks, blocks, allOkEnv,
      bind_apply, warnIfBlank, hb]
  · intro hb
    simp [runEvents, mainResult, connect_and_execute, runBlocks, blocks, allOkEnv,
      bind_apply, warnIfBlank, hb]
  · intro hb
    simp [runEvents, mainResult, connect_and_execute, runBlocks, blocks, allOkEnv,
      bind_apply, warnIfBlank, hb]

/-- Witness for C7 with non-blank outputs: the verbatim output of the docker
status command is printed. -/
theorem C7_witness :
    Event.printed ((fun _ : Nat => "x") 2) ∈ runEvents (allOkEnv fun _ => "x") :=
  (C7_thm fun _ => "x").2.2.2.1 rfl

/-- Claim C8 (spec-modelled Command Runner): executing the same read-only
command twice in the same session yields equal stdout whenever the remote
state is quiescent for that command (the first execution leaves the state
unchanged). -/
theorem C8_thm (m : RemoteModel) (s : m.State) (cmd : String)
    (h : quiescent m s cmd) :
    (runTwiceResults m s cmd).1.stdout = (runTwiceResults m s cmd).2.stdout := by
  simp only [runTwiceResults, quiescent] at h ⊢
  rw [h]

/-- Witness for C8 at the concrete quiescent remote model. -/
theorem C8_witness :
    quiescent demoModel ((0 : Nat) : demoModel.State) "pwd" ∧
    (runTwiceResults demoModel ((0 : Nat) : demoModel.State) "pwd").1.stdout =
      (runTwiceResults demoModel ((0 : Nat) : demoModel.State) "pwd").2.stdout :=
  ⟨rfl, C8_thm demoModel ((0 : Nat) : demoModel.State) "pwd" rfl⟩

/-- Claim C9: if an exception propagates out of `connect_and_execute`, the
process prints the error message and exits with status 1; if none does, it
completes all five commands and exits with status 0. -/
theorem C9_thm (env : Env) :
    (∀ m d, connect_and_execute env [] = (Except.error m, d) →
        mainResult env = (d ++ [Event.printed ("❌ Error: " ++ m)], 1)) ∧
    (∀ d, connect_and_execute env [] = (Except.ok (), d) →
        mainResult env = (d, 0) ∧ execedCmds d = blocks.map Block.cmd) := by
  constructor
  · intro m d h
    simp [mainResult, h]
  · intro d h
    refine ⟨by simp [mainResult, h], ?_⟩
    rcases script_shape env with ⟨m2, d2, h2, -, -⟩ | ⟨pre, h2, -, hfull⟩
    · rw [h] at h2
      simp at h2
    · rw [h] at h2
      simp only [Prod.mk.injEq, true_and] at h2
      subst h2
      have hclose : execedCmds closingEvents = [] := rfl
      simp only [execedCmds_append, hclose, List.append_nil]
      exact hfull

/-- Witness for C9: the unreachable-bastion run prints the propagated error
and exits with status 1. -/
theorem C9_witness :
    mainResult envNetFail =
      ([Event.printed "🔗 Connecting to oasis.stargety.com...",
        Event.connectAttempt 1,
        Event.printed ("❌ Error: " ++ "No route to host")], 1) :=
  (C9_thm envNetFail).1 "No route to host"
    [Event.printed "🔗 Connecting to oasis.stargety.com...",
     Event.connectAttempt 1] rfl

/-- Claim C10: in every run, every `exec_command` call is made on the
internal session (session 2); the bastion session never executes a
command. -/
theorem C10_thm (env : Env) : (runEvents env).all execOnlyInternal = true := by
  rcases mainResult_shape env with ⟨m, d, h, hall, -⟩ | ⟨pre, h, hall, -⟩
  · simp only [runEvents, h, List.all_append, Bool.and_eq_true]
    constructor
    · rw [List.all_eq_true]
      intro e he
      exact preEvent_execOnly e (hall e he)
    · rfl
  · simp only [runEvents, h, List.all_append, Bool.and_eq_true]
    constructor
    · rw [List.all_eq_true]
      intro e he
      exact preEvent_execOnly e (hall e he)
    · rfl
